import Mathlib

/-!
Shallow embedding of the terminal probe shim of live-photo-conv: the two
headers src/include/bindings.h and src/include/platformbindings.h.  Each
header defines, per platform family, a console width query against the
standard error stream and a TTY predicate over a file descriptor.  The
host operating system is modelled as an explicit state record holding the
observable outcome of every system call the code can issue; each C
function becomes a pure Lean function of that state.  The gboolean result
of is_a_tty is kept as a C int (gboolean is a typedef of gint), so that
its normalisation to 0 or 1 stays visible.
-/

namespace TerminalProbe

/-- A C short value: the 16-bit signed range used by the SHORT fields of
the console API structs. -/
abbrev CShort := {x : Int // -32768 ≤ x ∧ x ≤ 32767}

/-- A C unsigned short value: the 16-bit unsigned range used by the
fields of struct winsize and by WORD. -/
abbrev CUShort := {x : Nat // x < 65536}

/-- The struct winsize buffer filled by the TIOCGWINSZ ioctl; all four
fields are C unsigned short. -/
structure Winsize where
  ws_row : CUShort
  ws_col : CUShort
  ws_xpixel : CUShort
  ws_ypixel : CUShort

/-- The COORD struct of the console API: two SHORT fields. -/
structure Coord where
  X : CShort
  Y : CShort

/-- The SMALL_RECT struct of the console API: four SHORT fields. -/
structure SmallRect where
  Left : CShort
  Top : CShort
  Right : CShort
  Bottom : CShort

/-- The CONSOLE_SCREEN_BUFFER_INFO buffer filled by
GetConsoleScreenBufferInfo; the code under verification reads only the
srWindow field. -/
structure ConsoleScreenBufferInfo where
  dwSize : Coord
  dwCursorPosition : Coord
  wAttributes : CUShort
  srWindow : SmallRect
  dwMaximumWindowSize : Coord

/-- Observable behaviour of the POSIX host at one instant.  The field
tiocgwinsz gives, per file descriptor, the outcome of the call
ioctl (fd, TIOCGWINSZ, &w): the int return value (0 on success, nonzero
on failure) together with the winsize the call stores into the buffer.
The field isatty gives the int returned by isatty (fd). -/
structure PosixOS where
  tiocgwinsz : Int → Int × Winsize
  isatty : Int → Int

/-- Observable behaviour of the Win32 host at one instant.  The field
getStdHandle models GetStdHandle (handles are modelled as Int); gcsbi
gives, per handle, the outcome of GetConsoleScreenBufferInfo (h, &csbi):
the BOOL return value (nonzero on success, 0 on failure) together with
the buffer contents the call stores.  The field crt_isatty gives the int
returned by the C runtime call written _isatty (fd). -/
structure WinOS where
  getStdHandle : Int → Int
  gcsbi : Int → Int × ConsoleScreenBufferInfo
  crt_isatty : Int → Int

/-- The constant STDERR_FILENO from unistd.h. -/
def STDERR_FILENO : Int := 2

/-- The constant STD_ERROR_HANDLE of the console API, the DWORD value
(DWORD)-12 used as a standard-handle selector. -/
def STD_ERROR_HANDLE : Int := -12

namespace Bindings

namespace Posix

/-- Embedding of get_console_width from bindings.h, POSIX branch:
int fail = ioctl (STDERR_FILENO, TIOCGWINSZ, &w);
if (fail) \x7b return 0; \x7d else \x7b return (int) w.ws_col; \x7d -/
def get_console_width (s : PosixOS) : Int :=
  let r := s.tiocgwinsz STDERR_FILENO
  let fail := r.1
  if fail ≠ 0 then 0 else (r.2.ws_col.val : Int)

/-- Embedding of is_a_tty from bindings.h, POSIX branch:
return (gboolean) (isatty (fd) != 0);
In C the != operator yields the int 0 or 1, and gboolean is gint. -/
def is_a_tty (s : PosixOS) (fd : Int) : Int :=
  if s.isatty fd ≠ 0 then 1 else 0

end Posix

namespace Win32

/-- Embedding of get_console_width from bindings.h, _WIN32 branch:
int success = GetConsoleScreenBufferInfo (GetStdHandle (STD_ERROR_HANDLE), &csbi);
if (success) \x7b columns = csbi.srWindow.Right - csbi.srWindow.Left + 1;
return (int) columns; \x7d else \x7b return 0; \x7d
The SHORT fields are promoted to int, so the subtraction and increment
are exact Int arithmetic (no overflow is possible in the int range). -/
def get_console_width (s : WinOS) : Int :=
  let r := s.gcsbi (s.getStdHandle STD_ERROR_HANDLE)
  let success := r.1
  if success ≠ 0 then
    let csbi := r.2
    let columns : Int := csbi.srWindow.Right.val - csbi.srWindow.Left.val + 1
    columns
  else 0

/-- Embedding of is_a_tty from bindings.h, _WIN32 branch:
return (gboolean) (_isatty (fd) != 0); -/
def is_a_tty (s : WinOS) (fd : Int) : Int :=
  if s.crt_isatty fd ≠ 0 then 1 else 0

end Win32

end Bindings

namespace PlatformBindings

namespace Posix

/-- Embedding of get_console_width_inline from platformbindings.h, POSIX
branch; the body is the same C text as in bindings.h. -/
def get_console_width_inline (s : PosixOS) : Int :=
  let r := s.tiocgwinsz STDERR_FILENO
  let fail := r.1
  if fail ≠ 0 then 0 else (r.2.ws_col.val : Int)

/-- Embedding of is_a_tty_inline from platformbindings.h, POSIX branch. -/
def is_a_tty_inline (s : PosixOS) (fd : Int) : Int :=
  if s.isatty fd ≠ 0 then 1 else 0

end Posix

namespace Win32

/-- Embedding of get_console_width_inline from platformbindings.h,
_WIN32 branch; the body is the same C text as in bindings.h. -/
def get_console_width_inline (s : WinOS) : Int :=
  let r := s.gcsbi (s.getStdHandle STD_ERROR_HANDLE)
  let success := r.1
  if success ≠ 0 then
    let csbi := r.2
    let columns : Int := csbi.srWindow.Right.val - csbi.srWindow.Left.val + 1
    columns
  else 0

/-- Embedding of is_a_tty_inline from platformbindings.h, _WIN32
branch. -/
def is_a_tty_inline (s : WinOS) (fd : Int) : Int :=
  if s.crt_isatty fd ≠ 0 then 1 else 0

end Win32

end PlatformBindings

/-- A concrete winsize reporting 80 columns and 24 rows. -/
def wz80 : Winsize :=
  ⟨⟨24, by decide⟩, ⟨80, by decide⟩, ⟨0, by decide⟩, ⟨0, by decide⟩⟩

/-- A concrete winsize with every field zero (buffer left untouched by a
failing ioctl). -/
def wz0 : Winsize :=
  ⟨⟨0, by decide⟩, ⟨0, by decide⟩, ⟨0, by decide⟩, ⟨0, by decide⟩⟩

/-- A concrete zero COORD. -/
def coord0 : Coord := ⟨⟨0, by decide⟩, ⟨0, by decide⟩⟩

/-- A concrete screen buffer info whose visible window spans columns 0
to 79, hence 80 columns. -/
def csbi80 : ConsoleScreenBufferInfo :=
  ⟨coord0, coord0, ⟨0, by decide⟩,
   ⟨⟨0, by decide⟩, ⟨0, by decide⟩, ⟨79, by decide⟩, ⟨24, by decide⟩⟩,
   coord0⟩

/-- A concrete screen buffer info with every field zero. -/
def csbi0 : ConsoleScreenBufferInfo :=
  ⟨coord0, coord0, ⟨0, by decide⟩,
   ⟨⟨0, by decide⟩, ⟨0, by decide⟩, ⟨0, by decide⟩, ⟨0, by decide⟩⟩,
   coord0⟩

/-- A POSIX host on which every ioctl fails with -1 and no descriptor is
a terminal. -/
def failPosix : PosixOS := ⟨fun _ => (-1, wz0), fun _ => 0⟩

/-- A POSIX host on which the TIOCGWINSZ ioctl succeeds with 80 columns
and every descriptor is a terminal (isatty returns 1). -/
def okPosix : PosixOS := ⟨fun _ => (0, wz80), fun _ => 1⟩

/-- A Win32 host on which GetConsoleScreenBufferInfo fails (BOOL 0) and
no descriptor is a terminal. -/
def failWin : WinOS := ⟨fun _ => 0, fun _ => (0, csbi0), fun _ => 0⟩

/-- A Win32 host on which GetConsoleScreenBufferInfo succeeds (BOOL 1)
with an 80 column window and every descriptor is a terminal (the C
runtime predicate returns the nonzero value 64, as the real one may). -/
def okWin : WinOS := ⟨fun _ => 7, fun _ => (1, csbi80), fun _ => 64⟩

/-- C1: whenever the underlying OS query fails (a nonzero ioctl return
on POSIX, a zero BOOL from GetConsoleScreenBufferInfo on Win32, a zero
result from isatty or _isatty), get_console_width returns the sentinel 0
and is_a_tty returns gboolean false (0).  Both embedded functions are
total Lean functions returning plain values, so no invocation raises an
error, exception or signal on any input. -/
theorem C1_os_failure_maps_to_sentinels :
    (∀ s : PosixOS, (s.tiocgwinsz STDERR_FILENO).1 ≠ 0 →
      Bindings.Posix.get_console_width s = 0) ∧
    (∀ (s : PosixOS) (fd : Int), s.isatty fd = 0 →
      Bindings.Posix.is_a_tty s fd = 0) ∧
    (∀ s : WinOS, (s.gcsbi (s.getStdHandle STD_ERROR_HANDLE)).1 = 0 →
      Bindings.Win32.get_console_width s = 0) ∧
    (∀ (s : WinOS) (fd : Int), s.crt_isatty fd = 0 →
      Bindings.Win32.is_a_tty s fd = 0) := by
  refine ⟨fun s h => ?_, fun s fd h => ?_, fun s h => ?_, fun s fd h => ?_⟩
  · simp [Bindings.Posix.get_console_width, h]
  · simp [Bindings.Posix.is_a_tty, h]
  · simp [Bindings.Win32.get_console_width, h]
  · simp [Bindings.Win32.is_a_tty, h]

/-- Witness for C1 at the concrete failing hosts. -/
theorem C1_witness :
    Bindings.Posix.get_console_width failPosix = 0 ∧
    Bindings.Posix.is_a_tty failPosix 5 = 0 ∧
    Bindings.Win32.get_console_width failWin = 0 ∧
    Bindings.Win32.is_a_tty failWin 5 = 0 :=
  ⟨C1_os_failure_maps_to_sentinels.1 failPosix (by decide),
   C1_os_failure_maps_to_sentinels.2.1 failPosix 5 rfl,
   C1_os_failure_maps_to_sentinels.2.2.1 failWin rfl,
   C1_os_failure_maps_to_sentinels.2.2.2 failWin 5 rfl⟩

/-- C2: on the POSIX branch, get_console_width consults exactly the
outcome of the TIOCGWINSZ ioctl on file descriptor 2; when that call
returns zero (success) the result is exactly the ws_col field of the
reported window size, and when it returns nonzero the result is 0. -/
theorem C2_posix_width_from_ioctl :
    ∀ s : PosixOS,
      ((s.tiocgwinsz 2).1 = 0 →
        Bindings.Posix.get_console_width s =
          ((s.tiocgwinsz 2).2.ws_col.val : Int)) ∧
      ((s.tiocgwinsz 2).1 ≠ 0 →
        Bindings.Posix.get_console_width s = 0) := by
  intro s
  constructor
  · intro h
    simp [Bindings.Posix.get_console_width, STDERR_FILENO, h]
  · intro h
    simp [Bindings.Posix.get_console_width, STDERR_FILENO, h]

/-- Witness for C2 at a succeeding and at a failing concrete host. -/
theorem C2_witness :
    Bindings.Posix.get_console_width okPosix =
      ((okPosix.tiocgwinsz 2).2.ws_col.val : Int) ∧
    Bindings.Posix.get_console_width failPosix = 0 :=
  ⟨(C2_posix_width_from_ioctl okPosix).1 rfl,
   (C2_posix_width_from_ioctl failPosix).2 (by decide)⟩

/-- C3: on the Win32 branch, get_console_width consults exactly the
screen buffer info of the handle GetStdHandle (STD_ERROR_HANDLE), with
STD_ERROR_HANDLE the selector -12; when that call succeeds (nonzero
BOOL) the result is srWindow.Right - srWindow.Left + 1, and when it
fails the result is 0. -/
theorem C3_win_width_from_screen_buffer :
    ∀ s : WinOS,
      ((s.gcsbi (s.getStdHandle (-12))).1 ≠ 0 →
        Bindings.Win32.get_console_width s =
          (s.gcsbi (s.getStdHandle (-12))).2.srWindow.Right.val -
            (s.gcsbi (s.getStdHandle (-12))).2.srWindow.Left.val + 1) ∧
      ((s.gcsbi (s.getStdHandle (-12))).1 = 0 →
        Bindings.Win32.get_console_width s = 0) := by
  intro s
  constructor
  · intro h
    simp [Bindings.Win32.get_console_width, STD_ERROR_HANDLE, h]
  · intro h
    simp [Bindings.Win32.get_console_width, STD_ERROR_HANDLE, h]

/-- Witness for C3 at a succeeding and at a failing concrete host; on
the succeeding one the computed width is 79 - 0 + 1 = 80. -/
theorem C3_witness :
    Bindings.Win32.get_console_width okWin =
      (okWin.gcsbi (okWin.getStdHandle (-12))).2.srWindow.Right.val -
        (okWin.gcsbi (okWin.getStdHandle (-12))).2.srWindow.Left.val + 1 ∧
    Bindings.Win32.get_console_width failWin = 0 :=
  ⟨(C3_win_width_from_screen_buffer okWin).1 (by decide),
   (C3_win_width_from_screen_buffer failWin).2 rfl⟩

/-- C4: on each platform family, is_a_tty returns true (gboolean 1)
exactly when the host predicate (isatty, respectively _isatty) reports a
nonzero int for that descriptor, and returns false (gboolean 0) exactly
when the host predicate reports 0, for every descriptor value; the host
functions in the state are unconstrained, so this covers descriptors
bound to files, pipes, terminals, and invalid or closed descriptors. -/
theorem C4_isatty_tracks_host_predicate :
    ∀ fd : Int,
      (∀ s : PosixOS,
        (Bindings.Posix.is_a_tty s fd = 1 ↔ s.isatty fd ≠ 0) ∧
        (Bindings.Posix.is_a_tty s fd = 0 ↔ s.isatty fd = 0)) ∧
      (∀ s : WinOS,
        (Bindings.Win32.is_a_tty s fd = 1 ↔ s.crt_isatty fd ≠ 0) ∧
        (Bindings.Win32.is_a_tty s fd = 0 ↔ s.crt_isatty fd = 0)) := by
  intro fd
  constructor
  · intro s
    by_cases h : s.isatty fd = 0 <;> simp [Bindings.Posix.is_a_tty, h]
  · intro s
    by_cases h : s.crt_isatty fd = 0 <;> simp [Bindings.Win32.is_a_tty, h]

/-- C5: on both platform families get_console_width returns an integer
greater than or equal to 0; on the POSIX branch this is unconditional
(ws_col is unsigned), while on the Win32 branch it holds under the
stated proviso that Right - Left + 1 is non-negative whenever the screen
buffer query succeeds. -/
theorem C5_width_nonneg :
    ∀ (sp : PosixOS) (sw : WinOS),
      ((sw.gcsbi (sw.getStdHandle STD_ERROR_HANDLE)).1 ≠ 0 →
        0 ≤ (sw.gcsbi (sw.getStdHandle STD_ERROR_HANDLE)).2.srWindow.Right.val -
              (sw.gcsbi (sw.getStdHandle STD_ERROR_HANDLE)).2.srWindow.Left.val + 1) →
      0 ≤ Bindings.Posix.get_console_width sp ∧
      0 ≤ Bindings.Win32.get_console_width sw := by
  intro sp sw hw
  constructor
  · simp only [Bindings.Posix.get_console_width]
    split
    · exact le_refl 0
    · exact Int.ofNat_nonneg _
  · simp only [Bindings.Win32.get_console_width]
    split
    · exact hw (by assumption)
    · exact le_refl 0

/-- Witness for C5 at concrete succeeding hosts. -/
theorem C5_witness :
    0 ≤ Bindings.Posix.get_console_width okPosix ∧
    0 ≤ Bindings.Win32.get_console_width okWin :=
  C5_width_nonneg okPosix okWin (fun _ => by decide)

/-- C6: both operations are deterministic functions of the live OS
observation they consult: two host states that agree on the outcome of
the window size query against standard error give identical widths, and
two host states that agree on the terminal predicate at a descriptor
give identical is_a_tty results, on each platform family.  In the
embedding both functions are pure (they return a value and no changed
state), so neither call mutates any process state. -/
theorem C6_stateless_deterministic :
    (∀ s₁ s₂ : PosixOS,
      s₁.tiocgwinsz STDERR_FILENO = s₂.tiocgwinsz STDERR_FILENO →
      Bindings.Posix.get_console_width s₁ = Bindings.Posix.get_console_width s₂) ∧
    (∀ (s₁ s₂ : PosixOS) (fd : Int), s₁.isatty fd = s₂.isatty fd →
      Bindings.Posix.is_a_tty s₁ fd = Bindings.Posix.is_a_tty s₂ fd) ∧
    (∀ s₁ s₂ : WinOS,
      s₁.gcsbi (s₁.getStdHandle STD_ERROR_HANDLE) =
        s₂.gcsbi (s₂.getStdHandle STD_ERROR_HANDLE) →
      Bindings.Win32.get_console_width s₁ = Bindings.Win32.get_console_width s₂) ∧
    (∀ (s₁ s₂ : WinOS) (fd : Int), s₁.crt_isatty fd = s₂.crt_isatty fd →
      Bindings.Win32.is_a_tty s₁ fd = Bindings.Win32.is_a_tty s₂ fd) := by
  refine ⟨fun s₁ s₂ h => ?_, fun s₁ s₂ fd h => ?_, fun s₁ s₂ h => ?_,
    fun s₁ s₂ fd h => ?_⟩
  · unfold Bindings.Posix.get_console_width
    rw [h]
  · unfold Bindings.Posix.is_a_tty
    rw [h]
  · unfold Bindings.Win32.get_console_width
    rw [h]
  · unfold Bindings.Win32.is_a_tty
    rw [h]

/-- Witness for C6: two calls against the same host state coincide. -/
theorem C6_witness :
    Bindings.Posix.get_console_width okPosix =
      Bindings.Posix.get_console_width okPosix ∧
    Bindings.Posix.is_a_tty okPosix 0 = Bindings.Posix.is_a_tty okPosix 0 ∧
    Bindings.Win32.get_console_width okWin =
      Bindings.Win32.get_console_width okWin ∧
    Bindings.Win32.is_a_tty okWin 0 = Bindings.Win32.is_a_tty okWin 0 :=
  ⟨C6_stateless_deterministic.1 okPosix okPosix rfl,
   C6_stateless_deterministic.2.1 okPosix okPosix 0 rfl,
   C6_stateless_deterministic.2.2.1 okWin okWin rfl,
   C6_stateless_deterministic.2.2.2 okWin okWin 0 rfl⟩

/-- C7: get_console_width takes no input beyond the host state and
queries only standard error: on the POSIX branch its value is exactly
the window size ioctl outcome at file descriptor 2, and replacing the
ioctl behaviour at every other descriptor changes nothing; on the Win32
branch its value reads only GetStdHandle at selector -12 and the screen
buffer query at the handle so obtained, and replacing both functions by
any functions agreeing at those single points changes nothing. -/
theorem C7_queries_stderr_only :
    (∀ s : PosixOS,
      Bindings.Posix.get_console_width s =
        (if (s.tiocgwinsz 2).1 ≠ 0 then 0
         else ((s.tiocgwinsz 2).2.ws_col.val : Int))) ∧
    (∀ (s : PosixOS) (f : Int → Int × Winsize),
      f 2 = s.tiocgwinsz 2 →
      Bindings.Posix.get_console_width ⟨f, s.isatty⟩ =
        Bindings.Posix.get_console_width s) ∧
    (∀ (s : WinOS) (h : Int → Int) (g : Int → Int × ConsoleScreenBufferInfo),
      h (-12) = s.getStdHandle (-12) →
      g (s.getStdHandle (-12)) = s.gcsbi (s.getStdHandle (-12)) →
      Bindings.Win32.get_console_width ⟨h, g, s.crt_isatty⟩ =
        Bindings.Win32.get_console_width s) := by
  refine ⟨fun s => rfl, fun s f hf => ?_, fun s h g hh hg => ?_⟩
  · simp only [Bindings.Posix.get_console_width, STDERR_FILENO]
    rw [hf]
  · simp only [Bindings.Win32.get_console_width, STD_ERROR_HANDLE]
    rw [hh, hg]

/-- Witness for C7: replacing the off-target behaviour of the concrete
hosts (failure on every descriptor other than 2, respectively other
than the standard error handle) leaves the result unchanged. -/
theorem C7_witness :
    Bindings.Posix.get_console_width
        ⟨fun fd => if fd = 2 then okPosix.tiocgwinsz 2 else (-1, wz0),
         okPosix.isatty⟩ =
      Bindings.Posix.get_console_width okPosix ∧
    Bindings.Win32.get_console_width
        ⟨fun sel => if sel = -12 then okWin.getStdHandle (-12) else 0,
         fun hd => if hd = okWin.getStdHandle (-12)
           then okWin.gcsbi (okWin.getStdHandle (-12)) else (0, csbi0),
         okWin.crt_isatty⟩ =
      Bindings.Win32.get_console_width okWin :=
  ⟨C7_queries_stderr_only.2.1 okPosix _ rfl,
   C7_queries_stderr_only.2.2 okWin _ _ rfl rfl⟩

/-- C8: the two headers are behaviourally identical: on every host state
and descriptor, on each platform family, get_console_width of bindings.h
agrees with get_console_width_inline of platformbindings.h and is_a_tty
of bindings.h agrees with is_a_tty_inline of platformbindings.h. -/
theorem C8_headers_equivalent :
    (∀ s : PosixOS,
      Bindings.Posix.get_console_width s =
        PlatformBindings.Posix.get_console_width_inline s) ∧
    (∀ (s : PosixOS) (fd : Int),
      Bindings.Posix.is_a_tty s fd =
        PlatformBindings.Posix.is_a_tty_inline s fd) ∧
    (∀ s : WinOS,
      Bindings.Win32.get_console_width s =
        PlatformBindings.Win32.get_console_width_inline s) ∧
    (∀ (s : WinOS) (fd : Int),
      Bindings.Win32.is_a_tty s fd =
        PlatformBindings.Win32.is_a_tty_inline s fd) :=
  ⟨fun _ => rfl, fun _ _ => rfl, fun _ => rfl, fun _ _ => rfl⟩

/-- C9: on the POSIX branch the returned width never exceeds 65535,
because ws_col is an unsigned 16-bit field read before widening to
int. -/
theorem C9_posix_width_le_65535 :
    ∀ s : PosixOS, Bindings.Posix.get_console_width s ≤ 65535 := by
  intro s
  simp only [Bindings.Posix.get_console_width]
  split
  · decide
  · have hc := (s.tiocgwinsz STDERR_FILENO).2.ws_col.property
    omega

/-- C10: on each platform family and for every descriptor and host
state, is_a_tty returns exactly the gboolean 0 or 1, whatever int the
host predicate returns, since the C != operator normalises it. -/
theorem C10_isatty_normalized :
    ∀ fd : Int,
      (∀ s : PosixOS,
        Bindings.Posix.is_a_tty s fd = 0 ∨ Bindings.Posix.is_a_tty s fd = 1) ∧
      (∀ s : WinOS,
        Bindings.Win32.is_a_tty s fd = 0 ∨ Bindings.Win32.is_a_tty s fd = 1) := by
  intro fd
  constructor
  · intro s
    by_cases h : s.isatty fd = 0 <;> simp [Bindings.Posix.is_a_tty, h]
  · intro s
    by_cases h : s.crt_isatty fd = 0 <;> simp [Bindings.Win32.is_a_tty, h]

end TerminalProbe
